import Mathlib

set_option maxRecDepth 16384

/-!
Verification of the relay engine (managed TCP/UDP port forwarder) against its
specification. The Go sources are shallowly embedded: pure fragments become
Lean functions, stateful fragments become explicit state-passing functions,
int64 counters become Int, float64 rate state becomes Rat, and fallible calls
(socket binds) become Except values supplied as oracle arguments.
-/

/-! ## Accounting primitives: countingWriter (webui/service/relay.go, lines 214 to 236) -/

/-- State touched by one countingWriter.Write call: the flow-local counter
(the int64 the field named counter points to), the per-rule total (the total
pointer), and the live byte field of the Connection record (connRef, either
BytesIn or BytesOut depending on the isIn flag). -/
structure CountState where
  counter : Int
  total : Int
  connRef : Int
deriving DecidableEq

/-- Embedding of countingWriter.Write. The underlying sink result is the
oracle pair (n, err); pLen is the length of the buffer p passed in (the
requested count), which the accounting code never reads. On n > 0 the code
adds n to the flow counter and the rule total with atomic adds, then stores
the new flow-counter value into the live Connection field; the (n, err)
pair from the sink is returned unchanged in every case. -/
def countingWriterWrite (pLen : Nat) (n : Nat) (err : Option String)
    (s : CountState) : (Nat × Option String) × CountState :=
  if 0 < n then
    ((n, err),
      { counter := s.counter + (n : Int)
        total := s.total + (n : Int)
        connRef := s.counter + (n : Int) })
  else
    ((n, err), s)

/-! ## History ring (webui/service/relay.go, lines 364 to 376 and line 70) -/

/-- The Connection record (webui/service/relay.go, lines 24 to 37), with the
time stamps elided: they do not affect any claim settled here. -/
structure Connection where
  id : String
  clientIP : String
  target : String
  protocol : String
  bytesIn : Int
  bytesOut : Int
  duration : Int
  active : Bool
deriving DecidableEq

/-- maxHistorySize from webui/service/relay.go line 70. -/
def maxHistorySize : Nat := 100

/-- Embedding of RelayInstance.addToHistory: prepend the terminated
connection (newest first), then truncate to the first maxHistorySize
entries when the length exceeds it. -/
def addToHistory (conn : Connection) (history : List Connection) :
    List Connection :=
  if (conn :: history).length > maxHistorySize then
    (conn :: history).take maxHistorySize
  else
    conn :: history

/-- A sample terminated connection, used by concrete witnesses. -/
def connSampleA : Connection := ⟨"c1", "5.6.7.8", "t", "tcp", 1, 1, 0, false⟩

/-- A second sample terminated connection, used by concrete witnesses. -/
def connSampleB : Connection := ⟨"c2", "1.2.3.4", "t", "tcp", 5, 5, 0, false⟩

/-! ## Rule manager (webui/service/relay.go, lines 72 to 194) -/

/-- RelayRule (webui/model, part_006): the fields the engine reads. -/
structure RelayRule where
  id : String
  name : String
  src : String
  dst : String
  protocol : String
deriving DecidableEq

/-- RelayInstance as far as Start, GetStatus and IsRunning observe it:
the optional TCP listener and UDP socket handles plus the atomic counters,
all zero on creation (Go zero values). -/
structure RelayInstance where
  ruleId : String
  tcpListener : Option Nat
  udpConn : Option Nat
  connCount : Int
  bytesIn : Int
  bytesOut : Int
deriving DecidableEq

/-- RelayStatus (webui/service/relay.go, lines 16 to 22). -/
structure RelayStatus where
  running : Bool
  connections : Int
  bytesIn : Int
  bytesOut : Int
deriving DecidableEq

/-- The error cases RelayManager.Start can return. -/
inductive StartError where
  | alreadyRunning
  | tcpFailed (e : String)
  | udpFailed (e : String)
deriving DecidableEq

/-- Observable outcome of one RelayManager.Start call: the returned error
(none on success), the instance map afterwards, whether a TCP listener
opened during this call was closed again before returning, and whether the
status-push goroutine was launched. -/
structure StartOutcome where
  result : Option StartError
  instances : List (String × RelayInstance)
  tcpListenerClosed : Bool
  pushStatusStarted : Bool
deriving DecidableEq

/-- The instance literal built at webui/service/relay.go lines 92 to 97:
no listeners yet, counters at their zero values. -/
def newRelayInstance (rule : RelayRule) : RelayInstance :=
  { ruleId := rule.id, tcpListener := none, udpConn := none
    connCount := 0, bytesIn := 0, bytesOut := 0 }

/-- The TCP block of Start (lines 100 to 107): only rules with protocol
tcp or both listen; the bind outcome is the oracle argument. -/
def startTCPPhase (rule : RelayRule) (tcpBind : Except String Nat) :
    Except String (Option Nat) :=
  if rule.protocol == "tcp" || rule.protocol == "both" then
    match tcpBind with
    | .error e => .error e
    | .ok ln => .ok (some ln)
  else .ok none

/-- The UDP block of Start (lines 110 to 120): only rules with protocol
udp or both bind a datagram socket. -/
def startUDPPhase (rule : RelayRule) (udpBind : Except String Nat) :
    Except String (Option Nat) :=
  if rule.protocol == "udp" || rule.protocol == "both" then
    match udpBind with
    | .error e => .error e
    | .ok pc => .ok (some pc)
  else .ok none

/-- Embedding of RelayManager.Start (lines 83 to 129). The sync.Map of
instances is an association list keyed by rule id. A duplicate id returns
the already-running error before any socket work. On UDP failure after a
successful TCP phase, the code closes the TCP listener if one was opened
(tcpListenerClosed mirrors the nil check at lines 113 to 115) and returns
without registering. Only the full success path stores the instance and
launches pushStatus. -/
def managerStart (m : List (String × RelayInstance)) (rule : RelayRule)
    (tcpBind udpBind : Except String Nat) : StartOutcome :=
  if (List.lookup rule.id m).isSome then
    { result := some .alreadyRunning, instances := m
      tcpListenerClosed := false, pushStatusStarted := false }
  else
    match startTCPPhase rule tcpBind with
    | .error e =>
        { result := some (.tcpFailed e), instances := m
          tcpListenerClosed := false, pushStatusStarted := false }
    | .ok tcpLn =>
        match startUDPPhase rule udpBind with
        | .error e =>
            { result := some (.udpFailed e), instances := m
              tcpListenerClosed := tcpLn.isSome, pushStatusStarted := false }
        | .ok udpPc =>
            { result := none
              instances := (rule.id,
                { newRelayInstance rule with tcpListener := tcpLn, udpConn := udpPc }) :: m
              tcpListenerClosed := false, pushStatusStarted := true }

/-- Embedding of RelayManager.IsRunning (lines 156 to 159). -/
def isRunning (m : List (String × RelayInstance)) (id : String) : Bool :=
  (List.lookup id m).isSome

/-- Embedding of RelayManager.GetStatus (lines 162 to 173): a registered
instance reports running with its counters; otherwise only running false
(remaining fields are Go zero values). -/
def getStatus (m : List (String × RelayInstance)) (id : String) : RelayStatus :=
  match List.lookup id m with
  | some inst =>
      { running := true, connections := inst.connCount
        bytesIn := inst.bytesIn, bytesOut := inst.bytesOut }
  | none => { running := false, connections := 0, bytesIn := 0, bytesOut := 0 }

/-- A concrete rule with protocol both, for witnesses. -/
def ruleBothSample : RelayRule :=
  { id := "r1", name := "rule1", src := "127.0.0.1:17002"
    dst := "10.0.0.1:80", protocol := "both" }

/-- A concrete rule whose protocol string is none of tcp, udp, both. -/
def ruleBogusSample : RelayRule :=
  { id := "r2", name := "rule2", src := "127.0.0.1:17003"
    dst := "10.0.0.1:81", protocol := "quic" }

/-! ## Telemetry hub (unnamed Go file, WSHub and WSClient) -/

/-- WSClient as the hub logic observes it: an identity (cid, standing for
the pointer identity of the Go struct), the topic set, the relay filter,
the buffered send channel content with its capacity (256 in the code), and
whether the channel has been closed. -/
structure WSClient where
  cid : Nat
  topics : List String
  relayID : String
  send : List String
  cap : Nat
  closedSend : Bool
deriving DecidableEq

/-- The relay filter test from BroadcastToRelay line 131: empty filter
matches every rule. -/
def relayFilterMatches (c : WSClient) (relayID : String) : Bool :=
  c.relayID == "" || c.relayID == relayID

/-- The subscriber filter read under the client lock in BroadcastToRelay
(lines 129 to 132): topic subscribed and relay filter matching. -/
def clientMatches (relayID msgType : String) (c : WSClient) : Bool :=
  c.topics.contains msgType && relayFilterMatches c relayID

/-- The non-blocking channel send (select with default, lines 135 to 138):
enqueue when the buffer has room, otherwise drop the message and leave the
client untouched. -/
def trySend (msg : String) (c : WSClient) : WSClient :=
  if c.send.length < c.cap then { c with send := c.send ++ [msg] } else c

/-- Per-client body of the BroadcastToRelay loop: attempt the send only
when the filter matches (msg stands for the marshalled WSMessage bytes). -/
def broadcastStep (relayID msgType msg : String) (c : WSClient) : WSClient :=
  if clientMatches relayID msgType c then trySend msg c else c

/-- Embedding of WSHub.BroadcastToRelay (lines 117 to 141): iterate over
the registered clients, applying the per-client step; nothing is removed
or closed on this path. -/
def broadcastToRelay (relayID msgType msg : String) (hub : List WSClient) :
    List WSClient :=
  hub.map (broadcastStep relayID msgType msg)

/-- The broadcast branch of WSHub.Run (lines 64 to 87), clients kept: a
client with buffer room receives the message and stays registered. This
path has no topic or relay filter. -/
def runBroadcastKept (msg : String) (hub : List WSClient) : List WSClient :=
  hub.filterMap (fun c =>
    if c.send.length < c.cap then some { c with send := c.send ++ [msg] } else none)

/-- The broadcast branch of WSHub.Run, clients evicted: a client whose
buffer is full is deleted from the client set and its send channel is
closed. -/
def runBroadcastEvicted (hub : List WSClient) : List WSClient :=
  hub.filterMap (fun c =>
    if c.send.length < c.cap then none else some { c with closedSend := true })

/-- Delivery of a published sample to one subscriber on the
BroadcastToRelay path: the message was appended to its inbox. -/
def deliveredTo (relayID msgType msg : String) (c : WSClient) : Prop :=
  (broadcastStep relayID msgType msg c).send = c.send ++ [msg]

/-- The subscription command of WSClient.readPump (unmarshalled request,
lines 171 to 176). -/
structure SubCmd where
  action : String
  topics : List String
  relayID : String
deriving DecidableEq

/-- Setting one topic to true in the topic map (readPump line 184),
modelled on lists as duplicate-free insertion. -/
def insertTopic (ts : List String) (t : String) : List String :=
  if ts.contains t then ts else ts ++ [t]

/-- Embedding of the subscribe and unsubscribe handling in
WSClient.readPump (lines 181 to 194): subscribe adds the listed topics and
unconditionally overwrites the relay filter with the request field (even
when empty); unsubscribe deletes the listed topics and touches nothing
else; any other action is ignored. -/
def applySubCmd (cmd : SubCmd) (c : WSClient) : WSClient :=
  if cmd.action == "subscribe" then
    { c with topics := cmd.topics.foldl insertTopic c.topics
             relayID := cmd.relayID }
  else if cmd.action == "unsubscribe" then
    { c with topics := c.topics.filter (fun t => !(cmd.topics.contains t)) }
  else c

/-- A subscriber with a full inbox: capacity 256 (the channel size used
when the client is created) with 256 queued messages, subscribed to the
traffic topic with an empty relay filter. -/
def wsClientFull : WSClient :=
  { cid := 0, topics := ["relay.traffic"], relayID := ""
    send := List.replicate 256 "m0", cap := 256, closedSend := false }

/-- A healthy subscriber with a roomy inbox, same subscription. -/
def wsClientRoomy : WSClient :=
  { cid := 1, topics := ["relay.traffic"], relayID := ""
    send := [], cap := 256, closedSend := false }

/-! ## UDP flow accounting and the status snapshot
(webui/service/relay.go, startUDP lines 378 to 503, pushStatus lines 505
to 596) -/

/-- State of one UDP client session inside a running instance: the
Connection record stored in the connections map (whose BytesIn and
BytesOut fields pushStatus reads), the shadow counters on the udpClient
struct, and the per-rule totals. -/
structure UdpFlowState where
  conn : Connection
  clientBytesIn : Int
  clientBytesOut : Int
  ruleBytesIn : Int
  ruleBytesOut : Int
deriving DecidableEq

/-- Session creation on first datagram (startUDP lines 404 to 443): a
fresh Connection with protocol udp, active, zero byte fields; zero
udpClient counters; rule totals carried over from the instance. -/
def udpNewFlow (id clientIP target : String) (ruleIn ruleOut : Int) :
    UdpFlowState :=
  { conn := { id := id, clientIP := clientIP, target := target
              protocol := "udp", bytesIn := 0, bytesOut := 0
              duration := 0, active := true }
    clientBytesIn := 0, clientBytesOut := 0
    ruleBytesIn := ruleIn, ruleBytesOut := ruleOut }

/-- A datagram of n bytes forwarded client to target (startUDP lines 481
to 484): adds to the udpClient counter and the rule total only; the
Connection record is not touched. -/
def udpRecvDatagram (n : Int) (s : UdpFlowState) : UdpFlowState :=
  { s with clientBytesIn := s.clientBytesIn + n
           ruleBytesIn := s.ruleBytesIn + n }

/-- A reply datagram of n bytes forwarded target to client (response
reader, lines 446 to 457): adds to the udpClient counter and the rule
total only. -/
def udpTargetReply (n : Int) (s : UdpFlowState) : UdpFlowState :=
  { s with clientBytesOut := s.clientBytesOut + n
           ruleBytesOut := s.ruleBytesOut + n }

/-- Session teardown (lines 459 to 476): only now are the udpClient
counters copied into the Connection record, which is also marked
inactive. -/
def udpFinalizeFlow (s : UdpFlowState) : UdpFlowState :=
  { s with conn := { s.conn with bytesIn := s.clientBytesIn
                                 bytesOut := s.clientBytesOut
                                 active := false } }

/-- The per-flow part of the pushStatus snapshot (lines 522 to 531): the
published copy carries atomic loads of the BytesIn and BytesOut fields of
the stored Connection record. -/
def snapshotActiveFlow (s : UdpFlowState) : Connection := s.conn

/-- Scenario S3 of the specification: a fresh UDP session on a fresh
instance; the client sends two 1-byte datagrams, the target replies with
one 1-byte datagram; the flow is still active. -/
def udpS3State : UdpFlowState :=
  udpTargetReply 1 (udpRecvDatagram 1 (udpRecvDatagram 1
    (udpNewFlow "f1" "9.9.9.9" "10.0.0.1:53" 0 0)))

/-! ## Rate estimator (webui/service/relay.go, pushStatus lines 545 to 592)
The float64 arithmetic of the source is modelled over the rationals; the
claims concern the shape of the recurrence (seeding, smoothing, clamping,
sign), which exact arithmetic preserves. -/

/-- Persistent estimator state for one direction: the lastBytesIn or
lastBytesOut int64 and the smoothSpeedIn or smoothSpeedOut float64. -/
structure EmaState where
  lastBytes : Int
  smooth : Rat
deriving DecidableEq

/-- The constant alpha = 0.3 from line 548. -/
def emaAlpha : Rat := 3 / 10

/-- One tick of the estimator for one direction (lines 550 to 583):
instantaneous speed is the raw difference of the cumulative counter and
its stored previous value; a zero EMA with positive instant speed is
seeded directly; otherwise the EMA recurrence applies; a result below 1 is
clamped to 0; the previous-value register is updated to the current
counter. -/
def pushStatusRateStep (current : Int) (s : EmaState) : EmaState :=
  let instantSpeed : Rat := ((current - s.lastBytes : Int) : Rat)
  let smoothed :=
    if s.smooth = 0 ∧ instantSpeed > 0 then instantSpeed
    else emaAlpha * instantSpeed + (1 - emaAlpha) * s.smooth
  let clamped := if smoothed < 1 then 0 else smoothed
  { lastBytes := current, smooth := clamped }

/-- The int64 cast of the float speed at lines 590 to 591: truncation
toward zero. -/
def reportedSpeed (s : EmaState) : Int :=
  if 0 ≤ s.smooth then ⌊s.smooth⌋ else -⌊-s.smooth⌋

/-- Modelled from the specification wording of the rate estimator, for
comparison with the code: the tick delta clamped at zero. -/
def specDelta (current last : Int) : Rat :=
  max 0 ((current - last : Int) : Rat)

/-- Modelled from the specification wording: the EMA value before
quantization, with the cold-start seed when the stored EMA is zero and the
delta positive. -/
def specEmaSeed (delta ema : Rat) : Rat :=
  if ema = 0 ∧ delta > 0 then delta
  else emaAlpha * delta + (1 - emaAlpha) * ema

/-- Modelled from the specification wording: EMA update with cold-start
seeding and quantization to 0 below 1. -/
def specEmaUpdate (delta ema : Rat) : Rat :=
  if specEmaSeed delta ema < 1 then 0 else specEmaSeed delta ema

/-! ## Theorems -/

/-- C1: countingWriter.Write returns the sink result (n, err) unchanged; on
n > 0 it adds exactly the actual written count n (not the requested length
pLen, which the statement quantifies over and the increment ignores) to the
flow-local counter and to the per-rule total, and stores the updated flow
counter into the live Connection byte field; on n = 0 no counter changes;
an accompanying error does not roll anything back. -/
theorem countingWriter_accounting (pLen n : Nat) (err : Option String)
    (s : CountState) :
    (countingWriterWrite pLen n err s).1 = (n, err)
    ∧ (0 < n → (countingWriterWrite pLen n err s).2 =
        { counter := s.counter + (n : Int)
          total := s.total + (n : Int)
          connRef := s.counter + (n : Int) })
    ∧ (n = 0 → (countingWriterWrite pLen n err s).2 = s) := by
  unfold countingWriterWrite
  by_cases h : 0 < n
  · rw [if_pos h]
    exact ⟨rfl, fun _ => rfl, fun heq => absurd heq (by omega)⟩
  · rw [if_neg h]
    exact ⟨rfl, fun hlt => absurd hlt h, fun _ => rfl⟩

/-- C1 witness: a concrete short write (requested 10 bytes, sink wrote 3,
returning an error) at concrete counter values. -/
theorem countingWriter_accounting_witness :
    (countingWriterWrite 10 3 (some "boom") ⟨1, 2, 1⟩).1 = (3, some "boom")
    ∧ (0 < 3 → (countingWriterWrite 10 3 (some "boom") ⟨1, 2, 1⟩).2 =
        { counter := (1 : Int) + ((3 : Nat) : Int)
          total := (2 : Int) + ((3 : Nat) : Int)
          connRef := (1 : Int) + ((3 : Nat) : Int) })
    ∧ (3 = 0 → (countingWriterWrite 10 3 (some "boom") ⟨1, 2, 1⟩).2 = ⟨1, 2, 1⟩) :=
  countingWriter_accounting 10 3 (some "boom") ⟨1, 2, 1⟩

/-- C6: the history ring invariant is preserved by addToHistory. Starting
from a history of length at most 100, the appended flow lands at the front
(newest first), the new length never exceeds 100, an append from below the
bound keeps every old entry, and an append at the bound evicts exactly the
oldest (last) entry while keeping the 99 newer ones in order. -/
theorem addToHistory_ring (conn : Connection) (history : List Connection)
    (hlen : history.length ≤ maxHistorySize) :
    (addToHistory conn history).head? = some conn
    ∧ (addToHistory conn history).length ≤ maxHistorySize
    ∧ (history.length < maxHistorySize →
        addToHistory conn history = conn :: history)
    ∧ (history.length = maxHistorySize →
        addToHistory conn history = conn :: history.dropLast) := by
  unfold addToHistory
  by_cases h : (conn :: history).length > maxHistorySize
  · rw [if_pos h]
    have h100 : history.length = 100 := by
      simp only [List.length_cons, maxHistorySize] at h hlen
      omega
    refine ⟨?_, ?_, ?_, ?_⟩
    · rw [show maxHistorySize = 99 + 1 from rfl, List.take_succ_cons]
      rfl
    · simp only [List.length_take]
      omega
    · intro hlt
      exfalso
      simp only [maxHistorySize] at hlt
      omega
    · intro _
      have hdl : history.dropLast = history.take 99 := by
        rw [List.dropLast_eq_take, h100]
      rw [hdl, show maxHistorySize = 99 + 1 from rfl, List.take_succ_cons]
  · rw [if_neg h]
    refine ⟨rfl, ?_, fun _ => rfl, ?_⟩
    · simp only [List.length_cons, maxHistorySize] at h ⊢
      omega
    · intro heq
      exfalso
      simp only [List.length_cons, maxHistorySize] at h heq
      omega

/-- C6 witness: appending a terminated flow to a concrete one-entry
history. -/
theorem addToHistory_ring_witness :
    (addToHistory connSampleB [connSampleA]).head? = some connSampleB
    ∧ (addToHistory connSampleB [connSampleA]).length ≤ maxHistorySize
    ∧ (([connSampleA] : List Connection).length < maxHistorySize →
        addToHistory connSampleB [connSampleA] = connSampleB :: [connSampleA])
    ∧ (([connSampleA] : List Connection).length = maxHistorySize →
        addToHistory connSampleB [connSampleA] =
          connSampleB :: ([connSampleA] : List Connection).dropLast) :=
  addToHistory_ring connSampleB [connSampleA] (by decide)

/-- C2: starting a rule with protocol both whose TCP listen succeeds and
whose UDP bind then fails returns the UDP failure, closes the already
opened TCP listener before returning, registers nothing (the instance map
is unchanged and IsRunning on the rule id stays false), and launches no
status-push loop. -/
theorem start_both_atomic (m : List (String × RelayInstance)) (rule : RelayRule)
    (ln : Nat) (e : String)
    (hproto : rule.protocol = "both")
    (hfree : List.lookup rule.id m = none) :
    (managerStart m rule (.ok ln) (.error e)).result = some (.udpFailed e)
    ∧ (managerStart m rule (.ok ln) (.error e)).tcpListenerClosed = true
    ∧ (managerStart m rule (.ok ln) (.error e)).instances = m
    ∧ isRunning (managerStart m rule (.ok ln) (.error e)).instances rule.id = false
    ∧ (managerStart m rule (.ok ln) (.error e)).pushStatusStarted = false := by
  have hstart : managerStart m rule (.ok ln) (.error e) =
      { result := some (.udpFailed e), instances := m
        tcpListenerClosed := true, pushStatusStarted := false } := by
    unfold managerStart startTCPPhase startUDPPhase
    rw [hfree]
    simp [hproto]
  rw [hstart]
  simp [isRunning, hfree]

/-- C2 witness: a fresh manager, the concrete both-protocol rule, a
successful TCP listen handle and a concrete UDP bind error. -/
theorem start_both_atomic_witness :
    (managerStart [] ruleBothSample (.ok 7) (.error "udp bind")).result =
      some (.udpFailed "udp bind")
    ∧ (managerStart [] ruleBothSample (.ok 7) (.error "udp bind")).tcpListenerClosed = true
    ∧ (managerStart [] ruleBothSample (.ok 7) (.error "udp bind")).instances = []
    ∧ isRunning (managerStart [] ruleBothSample (.ok 7) (.error "udp bind")).instances
        ruleBothSample.id = false
    ∧ (managerStart [] ruleBothSample (.ok 7) (.error "udp bind")).pushStatusStarted = false :=
  start_both_atomic [] ruleBothSample 7 "udp bind" rfl rfl

/-- C8: a second Start on an id that already has a registered instance
returns the already-running error and nothing else happens: the instance
map (hence every existing instance with its listeners and counters) is
unchanged, no TCP listener is closed, and no status-push loop is
launched. -/
theorem start_duplicate_no_side_effects (m : List (String × RelayInstance))
    (rule : RelayRule) (tcpBind udpBind : Except String Nat)
    (h : isRunning m rule.id = true) :
    managerStart m rule tcpBind udpBind =
      { result := some .alreadyRunning, instances := m
        tcpListenerClosed := false, pushStatusStarted := false } := by
  unfold isRunning at h
  unfold managerStart
  simp [h]

/-- C8 witness: a manager already holding the sample rule, restarted with
live bind oracles that would succeed. -/
theorem start_duplicate_no_side_effects_witness :
    managerStart [("r1", newRelayInstance ruleBothSample)] ruleBothSample
        (.ok 1) (.ok 2) =
      { result := some .alreadyRunning
        instances := [("r1", newRelayInstance ruleBothSample)]
        tcpListenerClosed := false, pushStatusStarted := false } :=
  start_duplicate_no_side_effects [("r1", newRelayInstance ruleBothSample)]
    ruleBothSample (.ok 1) (.ok 2) (by decide)

/-- C9: Start on a rule whose protocol string is none of tcp, udp, both
succeeds without touching either bind oracle outcome: it registers an
instance with no TCP listener and no UDP socket and zero counters, after
which IsRunning is true and GetStatus reports running with zero counters,
and the status-push loop is launched. -/
theorem start_unknown_protocol (m : List (String × RelayInstance))
    (rule : RelayRule) (tcpBind udpBind : Except String Nat)
    (h1 : rule.protocol ≠ "tcp") (h2 : rule.protocol ≠ "udp")
    (h3 : rule.protocol ≠ "both")
    (hfree : List.lookup rule.id m = none) :
    (managerStart m rule tcpBind udpBind).result = none
    ∧ (managerStart m rule tcpBind udpBind).instances =
        (rule.id, { ruleId := rule.id, tcpListener := none, udpConn := none
                    connCount := 0, bytesIn := 0, bytesOut := 0 }) :: m
    ∧ isRunning (managerStart m rule tcpBind udpBind).instances rule.id = true
    ∧ getStatus (managerStart m rule tcpBind udpBind).instances rule.id =
        { running := true, connections := 0, bytesIn := 0, bytesOut := 0 }
    ∧ (managerStart m rule tcpBind udpBind).pushStatusStarted = true := by
  have e1 : (rule.protocol == "tcp") = false := beq_eq_false_iff_ne.mpr h1
  have e2 : (rule.protocol == "udp") = false := beq_eq_false_iff_ne.mpr h2
  have e3 : (rule.protocol == "both") = false := beq_eq_false_iff_ne.mpr h3
  have hstart : managerStart m rule tcpBind udpBind =
      { result := none
        instances := (rule.id,
          { ruleId := rule.id, tcpListener := none, udpConn := none
            connCount := 0, bytesIn := 0, bytesOut := 0 }) :: m
        tcpListenerClosed := false, pushStatusStarted := true } := by
    unfold managerStart startTCPPhase startUDPPhase
    rw [hfree]
    simp [e1, e2, e3, newRelayInstance]
  rw [hstart]
  refine ⟨rfl, rfl, ?_, ?_, rfl⟩
  · simp [isRunning, List.lookup]
  · simp [getStatus, List.lookup]

/-- C9 witness: the concrete rule with protocol quic on a fresh manager. -/
theorem start_unknown_protocol_witness :
    (managerStart [] ruleBogusSample (.ok 1) (.ok 2)).result = none
    ∧ (managerStart [] ruleBogusSample (.ok 1) (.ok 2)).instances =
        (ruleBogusSample.id,
          { ruleId := ruleBogusSample.id, tcpListener := none, udpConn := none
            connCount := 0, bytesIn := 0, bytesOut := 0 }) :: []
    ∧ isRunning (managerStart [] ruleBogusSample (.ok 1) (.ok 2)).instances
        ruleBogusSample.id = true
    ∧ getStatus (managerStart [] ruleBogusSample (.ok 1) (.ok 2)).instances
        ruleBogusSample.id =
        { running := true, connections := 0, bytesIn := 0, bytesOut := 0 }
    ∧ (managerStart [] ruleBogusSample (.ok 1) (.ok 2)).pushStatusStarted = true :=
  start_unknown_protocol [] ruleBogusSample (.ok 1) (.ok 2)
    (by decide) (by decide) (by decide) rfl

/-- Helper: the BroadcastToRelay per-client step never changes the client
identity. -/
theorem broadcastStep_cid (relayID msgType msg : String) (c : WSClient) :
    (broadcastStep relayID msgType msg c).cid = c.cid := by
  unfold broadcastStep trySend
  split_ifs <;> rfl

/-- Helper: the BroadcastToRelay per-client step never closes a send
channel. -/
theorem broadcastStep_closedSend (relayID msgType msg : String) (c : WSClient) :
    (broadcastStep relayID msgType msg c).closedSend = c.closedSend := by
  unfold broadcastStep trySend
  split_ifs <;> rfl

/-- C3 counterexample: one registered subscriber matching the sample
(topic subscribed, empty relay filter) whose 256-slot inbox is full. After
BroadcastToRelay the hub is unchanged: the subscriber is still registered,
its channel is not closed, and the message was dropped, contradicting the
claim that a full-inbox subscriber is removed and its inbox closed on this
path. -/
theorem broadcast_slow_subscriber_counterexample :
    clientMatches "r1" "relay.traffic" wsClientFull = true
    ∧ broadcastToRelay "r1" "relay.traffic" "m2" [wsClientFull] = [wsClientFull]
    ∧ wsClientFull.closedSend = false := by
  refine ⟨by decide, ?_, by decide⟩
  decide

/-- C3 amended: on the BroadcastToRelay path a full inbox causes a silent
non-blocking drop: the client set (by identity) and every closedSend flag
are unchanged, a matching subscriber with room receives the message, a
matching subscriber with a full inbox is left exactly as it was, a
non-matching subscriber is untouched; eviction with channel close exists
only on the Run broadcast path, where a full-inbox client is removed and
closed. -/
theorem broadcastToRelay_nonblocking_drop (relayID msgType msg : String)
    (hub : List WSClient) :
    (broadcastToRelay relayID msgType msg hub).map WSClient.cid = hub.map WSClient.cid
    ∧ (broadcastToRelay relayID msgType msg hub).map WSClient.closedSend =
        hub.map WSClient.closedSend
    ∧ (∀ c : WSClient, clientMatches relayID msgType c = true →
        c.send.length < c.cap →
        broadcastStep relayID msgType msg c = { c with send := c.send ++ [msg] })
    ∧ (∀ c : WSClient, clientMatches relayID msgType c = true →
        ¬ c.send.length < c.cap → broadcastStep relayID msgType msg c = c)
    ∧ (∀ c : WSClient, clientMatches relayID msgType c = false →
        broadcastStep relayID msgType msg c = c)
    ∧ (∀ c ∈ hub, ¬ c.send.length < c.cap →
        { c with closedSend := true } ∈ runBroadcastEvicted hub) := by
  refine ⟨?_, ?_, ?_, ?_, ?_, ?_⟩
  · unfold broadcastToRelay
    rw [List.map_map]
    exact List.map_congr_left fun c _ => broadcastStep_cid relayID msgType msg c
  · unfold broadcastToRelay
    rw [List.map_map]
    exact List.map_congr_left fun c _ => broadcastStep_closedSend relayID msgType msg c
  · intro c hm hs
    unfold broadcastStep trySend
    simp [hm, hs]
  · intro c hm hs
    unfold broadcastStep trySend
    simp [hm, hs]
  · intro c hm
    unfold broadcastStep
    simp [hm]
  · intro c hc hfull
    unfold runBroadcastEvicted
    exact List.mem_filterMap.mpr ⟨c, hc, by rw [if_neg hfull]⟩

/-- C3 witness: the amended statement at a concrete hub holding the full
subscriber and a roomy one. -/
theorem broadcastToRelay_nonblocking_drop_witness :
    (broadcastToRelay "r1" "relay.traffic" "m2" [wsClientFull, wsClientRoomy]).map
        WSClient.cid = [wsClientFull, wsClientRoomy].map WSClient.cid
    ∧ (broadcastToRelay "r1" "relay.traffic" "m2" [wsClientFull, wsClientRoomy]).map
        WSClient.closedSend = [wsClientFull, wsClientRoomy].map WSClient.closedSend
    ∧ (∀ c : WSClient, clientMatches "r1" "relay.traffic" c = true →
        c.send.length < c.cap →
        broadcastStep "r1" "relay.traffic" "m2" c = { c with send := c.send ++ ["m2"] })
    ∧ (∀ c : WSClient, clientMatches "r1" "relay.traffic" c = true →
        ¬ c.send.length < c.cap → broadcastStep "r1" "relay.traffic" "m2" c = c)
    ∧ (∀ c : WSClient, clientMatches "r1" "relay.traffic" c = false →
        broadcastStep "r1" "relay.traffic" "m2" c = c)
    ∧ (∀ c ∈ [wsClientFull, wsClientRoomy], ¬ c.send.length < c.cap →
        { c with closedSend := true } ∈
          runBroadcastEvicted [wsClientFull, wsClientRoomy]) :=
  broadcastToRelay_nonblocking_drop "r1" "relay.traffic" "m2"
    [wsClientFull, wsClientRoomy]

/-- C7 counterexample: the full subscriber matches the published sample
(topic in its set, empty relay filter) yet the sample is not delivered to
it, because its inbox has no room; this refutes the unconditional
delivered-iff-filter claim in the if direction. -/
theorem delivered_iff_counterexample :
    clientMatches "r1" "relay.traffic" wsClientFull = true
    ∧ ¬ deliveredTo "r1" "relay.traffic" "m2" wsClientFull := by
  refine ⟨by decide, ?_⟩
  intro h
  have hstep : broadcastStep "r1" "relay.traffic" "m2" wsClientFull =
      wsClientFull := by decide
  unfold deliveredTo at h
  rw [hstep] at h
  have hlen := congrArg List.length h
  simp at hlen

/-- C7 amended: a published sample is delivered to a subscriber on the
BroadcastToRelay path if and only if the topic is in the subscriber topic
set, the relay filter is empty or equals the sample relay id, and the
subscriber inbox has room for the message. -/
theorem delivered_iff_match_and_space (relayID msgType msg : String)
    (c : WSClient) :
    deliveredTo relayID msgType msg c ↔
      (clientMatches relayID msgType c = true ∧ c.send.length < c.cap) := by
  unfold deliveredTo broadcastStep trySend
  by_cases hm : clientMatches relayID msgType c = true
  · by_cases hs : c.send.length < c.cap
    · rw [if_pos hm, if_pos hs]
      simp [hm, hs]
    · rw [if_pos hm, if_neg hs]
      constructor
      · intro h
        have hlen := congrArg List.length h
        simp at hlen
      · rintro ⟨-, hs2⟩
        exact absurd hs2 hs
  · rw [if_neg hm]
    constructor
    · intro h
      have hlen := congrArg List.length h
      simp at hlen
    · rintro ⟨hm2, -⟩
      exact absurd hm2 hm

/-- C7 witness: the amended iff at the roomy subscriber, both directions
concrete. -/
theorem delivered_iff_match_and_space_witness :
    deliveredTo "r1" "relay.traffic" "m2" wsClientRoomy ↔
      (clientMatches "r1" "relay.traffic" wsClientRoomy = true
        ∧ wsClientRoomy.send.length < wsClientRoomy.cap) :=
  delivered_iff_match_and_space "r1" "relay.traffic" "m2" wsClientRoomy

/-- Helper: membership after one topic-map insertion. -/
theorem mem_insertTopic (ts : List String) (t x : String) :
    x ∈ insertTopic ts t ↔ x ∈ ts ∨ x = t := by
  unfold insertTopic
  split_ifs with h
  · have ht : t ∈ ts := List.elem_iff.mp h
    constructor
    · exact Or.inl
    · rintro (hx | rfl)
      · exact hx
      · exact ht
  · simp

/-- Helper: membership after folding topic-map insertions over a request
list. -/
theorem mem_foldl_insertTopic (ts : List String) (acc : List String)
    (x : String) :
    x ∈ ts.foldl insertTopic acc ↔ x ∈ acc ∨ x ∈ ts := by
  induction ts generalizing acc with
  | nil => simp
  | cons t rest ih =>
    rw [List.foldl_cons, ih, mem_insertTopic]
    simp [List.mem_cons]
    tauto

/-- C4: evaluation of the embedded UDP data path on scenario S3 (two
1-byte client datagrams forwarded, one 1-byte target reply, flow still
active). The rule totals hold 2 and 1 and the udpClient shadow counters
hold 2 and 1, but the pushStatus snapshot of the still-active flow copies
the BytesIn and BytesOut fields of the stored Connection record, which the
UDP data path never updates while the flow is active: the snapshot reports
0 and 0 instead of the 2 and 1 the specification expects; the values reach
the record only at finalization. -/
theorem udp_s3_snapshot :
    (snapshotActiveFlow udpS3State).active = true
    ∧ udpS3State.ruleBytesIn = 2
    ∧ udpS3State.ruleBytesOut = 1
    ∧ udpS3State.clientBytesIn = 2
    ∧ udpS3State.clientBytesOut = 1
    ∧ (snapshotActiveFlow udpS3State).bytesIn = 0
    ∧ (snapshotActiveFlow udpS3State).bytesOut = 0
    ∧ ¬((snapshotActiveFlow udpS3State).bytesIn = 2
        ∧ (snapshotActiveFlow udpS3State).bytesOut = 1)
    ∧ (snapshotActiveFlow (udpFinalizeFlow udpS3State)).bytesIn = 2
    ∧ (snapshotActiveFlow (udpFinalizeFlow udpS3State)).bytesOut = 1
    ∧ (snapshotActiveFlow (udpFinalizeFlow udpS3State)).active = false := by
  decide

/-- Helper: the sequential update of pushStatus for one direction equals
the specification recurrence applied to the raw (unclamped) delta. -/
theorem pushStatusRateStep_eq (current : Int) (s : EmaState) :
    pushStatusRateStep current s =
      { lastBytes := current
        smooth := specEmaUpdate ((current - s.lastBytes : Int) : Rat) s.smooth } :=
  rfl

/-- Helper: the specification EMA update is non-negative and quantizes to
zero below one, for non-negative delta and non-negative stored EMA. -/
theorem specEmaUpdate_props (delta ema : Rat) (hd : 0 ≤ delta) (he : 0 ≤ ema) :
    0 ≤ specEmaUpdate delta ema
    ∧ (specEmaUpdate delta ema = 0 ∨ 1 ≤ specEmaUpdate delta ema) := by
  have hseed : 0 ≤ specEmaSeed delta ema := by
    unfold specEmaSeed
    split_ifs with h
    · exact hd
    · exact add_nonneg (mul_nonneg (by norm_num [emaAlpha]) hd)
        (mul_nonneg (by norm_num [emaAlpha]) he)
  unfold specEmaUpdate
  split_ifs with hlt
  · exact ⟨le_refl 0, Or.inl rfl⟩
  · exact ⟨hseed, Or.inr (le_of_not_lt hlt)⟩

/-- C5: under the monotonicity of the cumulative byte counter (the stored
previous value never exceeds the current reading) and a non-negative
stored EMA, one estimator tick follows the specified recurrence: the raw
difference the code uses coincides with max(0, delta); a zero EMA with
positive delta is seeded directly, otherwise the 0.3/0.7 smoothing
applies; the result is clamped to 0 below 1; the previous-value register
becomes the current reading; the reported speed is the integer truncation
of the EMA, which equals its floor and is never negative. -/
theorem rate_estimator_recurrence (current : Int) (s : EmaState)
    (hmono : s.lastBytes ≤ current) (hnn : 0 ≤ s.smooth) :
    (pushStatusRateStep current s).smooth =
      specEmaUpdate (specDelta current s.lastBytes) s.smooth
    ∧ (pushStatusRateStep current s).lastBytes = current
    ∧ 0 ≤ (pushStatusRateStep current s).smooth
    ∧ ((pushStatusRateStep current s).smooth = 0
        ∨ 1 ≤ (pushStatusRateStep current s).smooth)
    ∧ reportedSpeed (pushStatusRateStep current s) =
        ⌊(pushStatusRateStep current s).smooth⌋
    ∧ 0 ≤ reportedSpeed (pushStatusRateStep current s) := by
  have hdnn : (0 : Rat) ≤ ((current - s.lastBytes : Int) : Rat) := by
    have h0 : (0 : Int) ≤ current - s.lastBytes := sub_nonneg.mpr hmono
    exact_mod_cast h0
  have hdelta : specDelta current s.lastBytes =
      ((current - s.lastBytes : Int) : Rat) := by
    unfold specDelta
    exact max_eq_right hdnn
  have hprops := specEmaUpdate_props ((current - s.lastBytes : Int) : Rat)
    s.smooth hdnn hnn
  have hsm : (pushStatusRateStep current s).smooth =
      specEmaUpdate ((current - s.lastBytes : Int) : Rat) s.smooth := by
    rw [pushStatusRateStep_eq]
  refine ⟨?_, ?_, ?_, ?_, ?_, ?_⟩
  · rw [hsm, hdelta]
  · rw [pushStatusRateStep_eq]
  · rw [hsm]; exact hprops.1
  · rw [hsm]; exact hprops.2.imp id id
  · unfold reportedSpeed
    rw [if_pos (by rw [hsm]; exact hprops.1)]
  · unfold reportedSpeed
    rw [if_pos (by rw [hsm]; exact hprops.1)]
    exact Int.le_floor.mpr (by rw [hsm]; exact_mod_cast hprops.1)

/-- C5 witness: a cold-start tick that sees 10 new bytes on a fresh
estimator. -/
theorem rate_estimator_recurrence_witness :
    (pushStatusRateStep 10 ⟨0, 0⟩).smooth =
      specEmaUpdate (specDelta 10 (EmaState.lastBytes ⟨0, 0⟩))
        (EmaState.smooth ⟨0, 0⟩)
    ∧ (pushStatusRateStep 10 ⟨0, 0⟩).lastBytes = 10
    ∧ 0 ≤ (pushStatusRateStep 10 ⟨0, 0⟩).smooth
    ∧ ((pushStatusRateStep 10 ⟨0, 0⟩).smooth = 0
        ∨ 1 ≤ (pushStatusRateStep 10 ⟨0, 0⟩).smooth)
    ∧ reportedSpeed (pushStatusRateStep 10 ⟨0, 0⟩) =
        ⌊(pushStatusRateStep 10 ⟨0, 0⟩).smooth⌋
    ∧ 0 ≤ reportedSpeed (pushStatusRateStep 10 ⟨0, 0⟩) :=
  rate_estimator_recurrence 10 ⟨0, 0⟩ (by norm_num) (by norm_num)

/-- C10: for every subscriber and every readPump request, an unsubscribe
command removes exactly the listed topics and leaves the relay filter (and
everything else) unchanged, while a subscribe command adds the listed
topics and unconditionally overwrites the relay filter with the request
field; in particular a subscribe carrying an empty relay id clears the
filter so the subscriber matches every rule. -/
theorem subCmd_semantics (cmd : SubCmd) (c : WSClient) :
    (cmd.action = "unsubscribe" →
      (applySubCmd cmd c).relayID = c.relayID
      ∧ (∀ x : String, x ∈ (applySubCmd cmd c).topics ↔
          (x ∈ c.topics ∧ x ∉ cmd.topics)))
    ∧ (cmd.action = "subscribe" →
      (applySubCmd cmd c).relayID = cmd.relayID
      ∧ (∀ x : String, x ∈ (applySubCmd cmd c).topics ↔
          (x ∈ c.topics ∨ x ∈ cmd.topics)))
    ∧ (cmd.action = "subscribe" → cmd.relayID = "" →
      ∀ rid : String, relayFilterMatches (applySubCmd cmd c) rid = true) := by
  refine ⟨?_, ?_, ?_⟩
  · intro ha
    have h1 : (cmd.action == "subscribe") = false :=
      beq_eq_false_iff_ne.mpr (by rw [ha]; decide)
    have h2 : (cmd.action == "unsubscribe") = true := by rw [ha]; decide
    unfold applySubCmd
    rw [h1, h2]
    refine ⟨rfl, ?_⟩
    intro x
    simp [List.mem_filter]
  · intro ha
    have h1 : (cmd.action == "subscribe") = true := by rw [ha]; decide
    unfold applySubCmd
    rw [h1]
    exact ⟨rfl, fun x => mem_foldl_insertTopic cmd.topics c.topics x⟩
  · intro ha hrid rid
    have h1 : (cmd.action == "subscribe") = true := by rw [ha]; decide
    unfold applySubCmd relayFilterMatches
    rw [h1]
    simp [hrid]

/-- C10 witness: a concrete subscribe request with an empty relay id
applied to the roomy subscriber. -/
theorem subCmd_semantics_witness :
    ((SubCmd.mk "subscribe" ["relay.connections"] "").action = "unsubscribe" →
      (applySubCmd ⟨"subscribe", ["relay.connections"], ""⟩ wsClientRoomy).relayID =
        wsClientRoomy.relayID
      ∧ (∀ x : String,
          x ∈ (applySubCmd ⟨"subscribe", ["relay.connections"], ""⟩ wsClientRoomy).topics ↔
          (x ∈ wsClientRoomy.topics
            ∧ x ∉ (SubCmd.mk "subscribe" ["relay.connections"] "").topics)))
    ∧ ((SubCmd.mk "subscribe" ["relay.connections"] "").action = "subscribe" →
      (applySubCmd ⟨"subscribe", ["relay.connections"], ""⟩ wsClientRoomy).relayID =
        (SubCmd.mk "subscribe" ["relay.connections"] "").relayID
      ∧ (∀ x : String,
          x ∈ (applySubCmd ⟨"subscribe", ["relay.connections"], ""⟩ wsClientRoomy).topics ↔
          (x ∈ wsClientRoomy.topics
            ∨ x ∈ (SubCmd.mk "subscribe" ["relay.connections"] "").topics)))
    ∧ ((SubCmd.mk "subscribe" ["relay.connections"] "").action = "subscribe" →
      (SubCmd.mk "subscribe" ["relay.connections"] "").relayID = "" →
      ∀ rid : String,
        relayFilterMatches
          (applySubCmd ⟨"subscribe", ["relay.connections"], ""⟩ wsClientRoomy) rid = true) :=
  subCmd_semantics ⟨"subscribe", ["relay.connections"], ""⟩ wsClientRoomy
